import Mathlib

/-!
Shallow embedding of the telemetry-collection core of
`migros/migros-quantum-safe-analysis` (src/data_collection.py and
src/analysis.py), together with theorems settling the spec claims.

Modelling conventions:
* Python dictionary lookups that the code performs unconditionally are
  modelled as required structure fields; lookups the code guards with
  `try/except KeyError` or `in` tests are `Option` fields.
* Python exceptions are modelled by `Except PyErr`; a Python `raise`
  is `.error`, normal return is `.ok`.
* Python float division of integer counters is modelled exactly over `ℚ`;
  Python raises `ZeroDivisionError` on a zero divisor (also for floats),
  which the embedding reflects with an explicit zero test.
* The ISO-8601 timestamp parse performed by the external `datetime`
  library is treated as already done: the snapshot field `read` holds the
  parsed epoch-seconds value (the spec's data model requires a timestamp
  to be present on every raw snapshot).
-/

/-- Python exceptions that the embedded code can raise. -/
inductive PyErr where
  | zeroDivisionError
  | runtimeError
  | valueError
  | requestError
deriving DecidableEq

/-- One entry of the `networks` section of a docker stats snapshot:
per-interface cumulative byte counters. -/
structure NetIf where
  rx_bytes : Nat
  tx_bytes : Nat
deriving DecidableEq

/-- The `memory_stats` section of a docker stats snapshot
(`usage` and `limit` are accessed unconditionally by `extract`). -/
structure MemoryStats where
  usage : Nat
  limit : Nat
deriving DecidableEq

/-- One raw docker stats snapshot as consumed by `extract`
(src/data_collection.py lines 144-176).  `networks` is optional (the code
tests `"networks" not in data.keys()`); the two `precpu_stats` fields are
optional (their lookups sit inside `try/except KeyError`); the remaining
fields are looked up unconditionally and are part of the snapshot per the
spec's data model. -/
structure RawSnapshot where
  read : ℚ
  name : String
  networks : Option (List NetIf)
  memory_stats : MemoryStats
  cpu_total_usage : Nat
  cpu_system_usage : Nat
  precpu_total_usage : Option Nat
  precpu_system_usage : Option Nat
deriving DecidableEq

/-- A normalized ContainerMetricSample, the record built at
src/data_collection.py lines 170-176. -/
structure Sample where
  time : ℚ
  container : String
  total_net_traffic : Nat
  memory_usage : ℚ
  cpu_usage : ℚ
deriving DecidableEq

/-- The interface loop of `extract` (src/data_collection.py lines 149-154):
`total_net_traffic` starts at 0 and accumulates `rx_bytes` then `tx_bytes`
of each interface in iteration order. -/
def netTrafficFold (ifaces : List NetIf) : Nat :=
  ifaces.foldl (fun acc i => acc + i.rx_bytes + i.tx_bytes) 0

/-- Embedding of `extract` (src/data_collection.py lines 144-176).
Returns `.ok none` for an incomplete record (missing network section),
`.ok (some s)` for an extracted sample, `.error` when the Python code
would raise (division by a zero memory limit or a zero system-cpu delta). -/
def extract (data : RawSnapshot) : Except PyErr (Option Sample) :=
  let timestamp := data.read
  match data.networks with
  | none => .ok none
  | some ifaces =>
      let total_net_traffic := netTrafficFold ifaces
      if data.memory_stats.limit = 0 then
        .error .zeroDivisionError
      else
        let memory_usage : ℚ := (data.memory_stats.usage : ℚ) / (data.memory_stats.limit : ℚ)
        match data.precpu_total_usage, data.precpu_system_usage with
        | some prev_total, some prev_sys =>
            let cont_diff : Int := (data.cpu_total_usage : Int) - (prev_total : Int)
            let sys_diff : Int := (data.cpu_system_usage : Int) - (prev_sys : Int)
            if sys_diff = 0 then
              .error .zeroDivisionError
            else
              .ok (some { time := timestamp, container := data.name.drop 1,
                          total_net_traffic := total_net_traffic,
                          memory_usage := memory_usage,
                          cpu_usage := (cont_diff : ℚ) / (sys_diff : ℚ) })
        | _, _ =>
            .ok (some { time := timestamp, container := data.name.drop 1,
                        total_net_traffic := total_net_traffic,
                        memory_usage := memory_usage,
                        cpu_usage := 0 })

/-- Claim C2: every raw stats snapshot lacking a network section makes
`extract` return the INCOMPLETE signal (`none`): no exception is raised and
no sample record is fabricated. -/
theorem extract_missing_network_returns_incomplete
    (s : RawSnapshot) (h : s.networks = none) :
    extract s = .ok none := by
  simp [extract, h]

/-- Witness for C2 at a concrete snapshot without a network section. -/
theorem extract_missing_network_returns_incomplete_witness :
    extract { read := 100, name := "/openssl-gen", networks := none,
              memory_stats := { usage := 5, limit := 10 },
              cpu_total_usage := 3, cpu_system_usage := 7,
              precpu_total_usage := none, precpu_system_usage := none }
      = .ok none :=
  extract_missing_network_returns_incomplete _ rfl

/-- Decidable equality on `Except`, used to evaluate the embedded fallible
functions on concrete inputs. -/
instance exceptDecEq {ε α : Type} [DecidableEq ε] [DecidableEq α] :
    DecidableEq (Except ε α) := fun a b =>
  match a, b with
  | .ok x, .ok y =>
      if h : x = y then isTrue (by rw [h])
      else isFalse (by intro hh; cases hh; exact h rfl)
  | .error x, .error y =>
      if h : x = y then isTrue (by rw [h])
      else isFalse (by intro hh; cases hh; exact h rfl)
  | .ok _, .error _ => isFalse (by intro hh; cases hh)
  | .error _, .ok _ => isFalse (by intro hh; cases hh)

/-- Concrete snapshot with a network section but a zero memory limit. -/
def snapZeroLimit : RawSnapshot :=
  { read := 0, name := "/jwt-client",
    networks := some [{ rx_bytes := 1, tx_bytes := 2 }],
    memory_stats := { usage := 5, limit := 0 },
    cpu_total_usage := 3, cpu_system_usage := 7,
    precpu_total_usage := none, precpu_system_usage := none }

/-- Counterexample for C6: at this concrete snapshot (network section
present, memory limit 0) `extract` raises `ZeroDivisionError` instead of
treating the snapshot as INCOMPLETE, so the claim as stated is false. -/
theorem extract_zero_limit_counterexample :
    extract snapZeroLimit = .error .zeroDivisionError ∧
    extract snapZeroLimit ≠ .ok none := by
  decide

/-- Claim C6 amended: for every snapshot with a network section whose
memory limit is zero, `extract` performs the division unguarded and raises
`ZeroDivisionError`; it does not return an INCOMPLETE signal or a sample. -/
theorem extract_zero_limit_raises
    (s : RawSnapshot) (ifaces : List NetIf)
    (hn : s.networks = some ifaces) (hl : s.memory_stats.limit = 0) :
    extract s = .error .zeroDivisionError := by
  simp [extract, hn, hl]

/-- Witness for the amended C6 at a concrete snapshot. -/
theorem extract_zero_limit_raises_witness :
    extract { read := 0, name := "/jwt-creator",
              networks := some [],
              memory_stats := { usage := 9, limit := 0 },
              cpu_total_usage := 3, cpu_system_usage := 7,
              precpu_total_usage := some 1, precpu_system_usage := some 2 }
      = .error .zeroDivisionError :=
  extract_zero_limit_raises _ [] rfl rfl

/-- Claim C4: for a snapshot with a network section from which `extract`
produces a sample, the sample's CPU ratio is exactly 0 when a previous-sample
baseline field is absent, and otherwise equals
(current total usage − previous total usage) /
(current system usage − previous system usage). -/
theorem extract_cpu_usage_spec
    (s : RawSnapshot) (ifaces : List NetIf) (rec : Sample)
    (hn : s.networks = some ifaces)
    (h : extract s = .ok (some rec)) :
    rec.cpu_usage =
      match s.precpu_total_usage, s.precpu_system_usage with
      | some prev_total, some prev_sys =>
          ((s.cpu_total_usage : ℚ) - (prev_total : ℚ))
            / ((s.cpu_system_usage : ℚ) - (prev_sys : ℚ))
      | _, _ => 0 := by
  rw [extract, hn] at h
  by_cases hl : s.memory_stats.limit = 0
  · simp [hl] at h
  · simp only [hl, if_false] at h
    rcases hpt : s.precpu_total_usage with _ | prev_total <;>
      rcases hps : s.precpu_system_usage with _ | prev_sys <;>
        simp only [hpt, hps] at h ⊢
    · cases h; rfl
    · cases h; rfl
    · cases h; rfl
    · by_cases hsd : (s.cpu_system_usage : Int) - (prev_sys : Int) = 0
      · simp [hsd] at h
      · simp only [hsd, if_false, Except.ok.injEq, Option.some.injEq] at h
        subst h
        push_cast
        rfl

/-- Concrete snapshot with a present CPU baseline. -/
def snapCpu : RawSnapshot :=
  { read := 0, name := "/jwt-client",
    networks := some [{ rx_bytes := 1, tx_bytes := 2 }],
    memory_stats := { usage := 1, limit := 2 },
    cpu_total_usage := 30, cpu_system_usage := 40,
    precpu_total_usage := some 10, precpu_system_usage := some 20 }

/-- The sample `extract` produces from `snapCpu`. -/
def sampleCpu : Sample :=
  { time := 0, container := "jwt-client", total_net_traffic := 3,
    memory_usage := 1 / 2, cpu_usage := 1 }

/-- Witness for C4 at `snapCpu`: the CPU baseline is present and the
sample's CPU ratio is (30−10)/(40−20) = 1. -/
theorem extract_cpu_usage_spec_witness :
    extract snapCpu = .ok (some sampleCpu) ∧
    sampleCpu.cpu_usage =
      match snapCpu.precpu_total_usage, snapCpu.precpu_system_usage with
      | some prev_total, some prev_sys =>
          ((snapCpu.cpu_total_usage : ℚ) - (prev_total : ℚ))
            / ((snapCpu.cpu_system_usage : ℚ) - (prev_sys : ℚ))
      | _, _ => 0 := by
  have h : extract snapCpu = .ok (some sampleCpu) := by
    simp only [extract, snapCpu, sampleCpu, netTrafficFold, List.foldl]
    norm_num
    rfl
  exact ⟨h, extract_cpu_usage_spec snapCpu [{ rx_bytes := 1, tx_bytes := 2 }]
    sampleCpu rfl h⟩

/-- The accumulator of the interface loop distributes over the fold:
folding from `a` yields `a` plus the sum of per-interface rx+tx. -/
theorem netTrafficFold_from (ifaces : List NetIf) :
    ∀ a : Nat, ifaces.foldl (fun acc i => acc + i.rx_bytes + i.tx_bytes) a
      = a + (ifaces.map fun i => i.rx_bytes + i.tx_bytes).sum := by
  induction ifaces with
  | nil => intro a; simp
  | cons i t ih =>
      intro a
      simp only [List.foldl_cons, List.map_cons, List.sum_cons, ih]
      omega

/-- The interface loop of `extract` computes the sum over all interfaces of
rx_bytes + tx_bytes. -/
theorem netTrafficFold_eq_sum (ifaces : List NetIf) :
    netTrafficFold ifaces = (ifaces.map fun i => i.rx_bytes + i.tx_bytes).sum := by
  simpa using netTrafficFold_from ifaces 0

/-- Every sample produced by `extract` carries the interface-loop total as
its `total_net_traffic` field. -/
theorem extract_total_net
    (s : RawSnapshot) (ifaces : List NetIf) (rec : Sample)
    (hn : s.networks = some ifaces)
    (h : extract s = .ok (some rec)) :
    rec.total_net_traffic = netTrafficFold ifaces := by
  rw [extract, hn] at h
  by_cases hl : s.memory_stats.limit = 0
  · simp [hl] at h
  · simp only [hl, if_false] at h
    rcases hpt : s.precpu_total_usage with _ | prev_total <;>
      rcases hps : s.precpu_system_usage with _ | prev_sys <;>
        simp only [hpt, hps] at h
    · cases h; rfl
    · cases h; rfl
    · cases h; rfl
    · by_cases hsd : (s.cpu_system_usage : Int) - (prev_sys : Int) = 0
      · simp [hsd] at h
      · simp only [hsd, if_false, Except.ok.injEq, Option.some.injEq] at h
        subst h; rfl

/-- Claim C8: for a snapshot with a network section from which `extract`
produces a sample, `total_net_traffic` equals the sum of rx_bytes + tx_bytes
over all interfaces, and any permutation of the interface list yields the
same sum (order independence). -/
theorem extract_net_traffic_sum_perm
    (s : RawSnapshot) (ifaces ifaces2 : List NetIf) (rec : Sample)
    (hn : s.networks = some ifaces)
    (h : extract s = .ok (some rec))
    (hperm : List.Perm ifaces2 ifaces) :
    rec.total_net_traffic = (ifaces.map fun i => i.rx_bytes + i.tx_bytes).sum ∧
    (ifaces2.map fun i => i.rx_bytes + i.tx_bytes).sum = rec.total_net_traffic := by
  have h1 : rec.total_net_traffic
      = (ifaces.map fun i => i.rx_bytes + i.tx_bytes).sum := by
    rw [extract_total_net s ifaces rec hn h, netTrafficFold_eq_sum]
  refine ⟨h1, ?_⟩
  rw [h1]
  exact (hperm.map fun i => i.rx_bytes + i.tx_bytes).sum_eq

/-- Concrete snapshot with two network interfaces. -/
def snapNet : RawSnapshot :=
  { read := 0, name := "/jwt-client",
    networks := some [{ rx_bytes := 1, tx_bytes := 2 }, { rx_bytes := 3, tx_bytes := 4 }],
    memory_stats := { usage := 1, limit := 2 },
    cpu_total_usage := 3, cpu_system_usage := 7,
    precpu_total_usage := none, precpu_system_usage := none }

/-- The sample `extract` produces from `snapNet`. -/
def sampleNet : Sample :=
  { time := 0, container := "jwt-client", total_net_traffic := 10,
    memory_usage := 1 / 2, cpu_usage := 0 }

/-- Witness for C8 at `snapNet`, against the reversed interface list. -/
theorem extract_net_traffic_sum_perm_witness :
    sampleNet.total_net_traffic
      = (([{ rx_bytes := 1, tx_bytes := 2 }, { rx_bytes := 3, tx_bytes := 4 }] :
          List NetIf).map fun i => i.rx_bytes + i.tx_bytes).sum ∧
    (([{ rx_bytes := 3, tx_bytes := 4 }, { rx_bytes := 1, tx_bytes := 2 }] :
        List NetIf).map fun i => i.rx_bytes + i.tx_bytes).sum
      = sampleNet.total_net_traffic := by
  have h : extract snapNet = .ok (some sampleNet) := by
    simp only [extract, snapNet, sampleNet, netTrafficFold, List.foldl]
    norm_num
    rfl
  exact extract_net_traffic_sum_perm snapNet _ _ sampleNet rfl h (by decide)

/-- One latency observation appended per request by
`ClientPerfCollector.load_continuous` (src/data_collection.py lines 63-70). -/
structure RequestRec where
  id : Nat
  msg_length : Nat
  latency : ℚ
  start : ℚ
deriving DecidableEq

/-- Python list slicing `xs[:k]` for an arbitrary (possibly negative) bound:
a negative `k` counts from the end (`len(xs) + k`), and the result is
clipped to the list. In particular `xs[:-0]` is `xs[:0] = []`. -/
def pySliceUpTo (k : Int) (xs : List α) : List α :=
  if k < 0 then xs.take ((xs.length + k).toNat) else xs.take k.toNat

/-- Embedding of the final normalization of `DockerStatCollector.collect`
(src/data_collection.py line 141):
`self.data = data[: -(len(data) % self.num_containers)]`.
Python `%` with a zero right operand raises `ZeroDivisionError`. -/
def collect_finalize (data : List Sample) (num_containers : Nat) :
    Except PyErr (List Sample) :=
  if num_containers = 0 then .error .zeroDivisionError
  else .ok (pySliceUpTo (-((data.length % num_containers : Nat) : Int)) data)

/-- State of a `ClientPerfCollector` (src/data_collection.py lines 18-45):
the stop event and the accumulated dataset `self.data`. -/
structure ClientCollectorState where
  stop_event : Bool
  data : List RequestRec
deriving DecidableEq

/-- Embedding of `ClientPerfCollector.stop_collecting`
(src/data_collection.py lines 38-45).  `worker` is the list the collector
thread accumulated; on a first stop the join completes, the worker commits
`self.data = data`, and the dataset is returned.  A second stop raises
`RuntimeError` and leaves the state untouched.  The returned pair is
(raised-or-returned value, post-call state). -/
def client_stop_collecting (st : ClientCollectorState) (worker : List RequestRec) :
    Except PyErr (List RequestRec) × ClientCollectorState :=
  if st.stop_event then (.error .runtimeError, st)
  else
    let st2 : ClientCollectorState := { stop_event := true, data := worker }
    (.ok st2.data, st2)

/-- State of a `DockerStatCollector` (src/data_collection.py lines 75-109):
stop event, accumulated dataset, observed containers and their count. -/
structure DockerCollectorState where
  stop_event : Bool
  data : List Sample
  containers : Option (List String)
  num_containers : Nat
deriving DecidableEq

/-- Embedding of `DockerStatCollector.__init__`
(src/data_collection.py lines 85-91): no containers, zero count,
empty dataset, stop event clear. -/
def DockerStatCollector_init : DockerCollectorState :=
  { stop_event := false, data := [], containers := none, num_containers := 0 }

/-- Embedding of `DockerStatCollector.set_containers`
(src/data_collection.py lines 106-109). -/
def set_containers (st : DockerCollectorState) (conts : List String) :
    DockerCollectorState :=
  { st with containers := some conts, num_containers := conts.length }

/-- Worker exit of `DockerStatCollector.collect` (src/data_collection.py
lines 127-141): the worker normalizes its accumulated list and commits it to
`self.data`; if the normalization raises (zero `num_containers`), the worker
thread dies with the exception and `self.data` is never assigned. -/
def docker_worker_exit (st : DockerCollectorState) (collected : List Sample) :
    DockerCollectorState :=
  match collect_finalize collected st.num_containers with
  | .ok d => { st with data := d }
  | .error _ => st

/-- Embedding of `DockerStatCollector.stop_collecting`
(src/data_collection.py lines 97-104): a second stop raises `RuntimeError`
and leaves the state untouched; a first stop sets the event, joins the
worker (which commits or dies, see `docker_worker_exit`) and returns
`self.data`. -/
def docker_stop_collecting (st : DockerCollectorState) (collected : List Sample) :
    Except PyErr (List Sample) × DockerCollectorState :=
  if st.stop_event then (.error .runtimeError, st)
  else
    let st2 := docker_worker_exit { st with stop_event := true } collected
    (.ok st2.data, st2)

/-- Embedding of `ClientPerfCollector.__init__`
(src/data_collection.py lines 27-32): empty dataset, stop event clear. -/
def ClientPerfCollector_init : ClientCollectorState :=
  { stop_event := false, data := [] }

/-- Worker exit preserves the stop flag, whether the normalization commits
or raises. -/
theorem docker_worker_exit_stop_event (st : DockerCollectorState) (c : List Sample) :
    (docker_worker_exit st c).stop_event = st.stop_event := by
  unfold docker_worker_exit
  cases hcf : collect_finalize c st.num_containers <;> simp

/-- Claim C1 fails on the code: with 2 containers and a collected dataset of
length 2 (already divisible by 2), the normalization
`data[: -(len(data) % num)]` evaluates the slice bound `-0 = 0` and returns
the empty list instead of the unchanged dataset of length 2. -/
theorem collect_finalize_drops_full_dataset :
    [sampleCpu, sampleNet].length % 2 = 0 ∧
    collect_finalize [sampleCpu, sampleNet] 2 = .ok [] ∧
    collect_finalize [sampleCpu, sampleNet] 2
      ≠ .ok [sampleCpu, sampleNet] := by
  refine ⟨rfl, rfl, ?_⟩
  intro h
  simp [collect_finalize, pySliceUpTo] at h

/-- Claim C5: on either collector, a second `stop_collecting` after a
completed stop raises `RuntimeError` and leaves the collector's state — in
particular its accumulated dataset — unchanged. -/
theorem stop_collecting_twice_rejected
    (stc : ClientCollectorState) (w w2 : List RequestRec)
    (std : DockerCollectorState) (c c2 : List Sample)
    (h1 : stc.stop_event = false) (h2 : std.stop_event = false) :
    client_stop_collecting (client_stop_collecting stc w).2 w2
      = (.error .runtimeError, (client_stop_collecting stc w).2) ∧
    docker_stop_collecting (docker_stop_collecting std c).2 c2
      = (.error .runtimeError, (docker_stop_collecting std c).2) := by
  refine ⟨by simp [client_stop_collecting, h1], ?_⟩
  have hst2 : (docker_stop_collecting std c).2.stop_event = true := by
    unfold docker_stop_collecting
    rw [h2]
    simp [docker_worker_exit_stop_event]
  rw [docker_stop_collecting, hst2]
  simp

/-- Witness for C5: both freshly-initialized collectors, stopped once,
reject a second stop and keep their state. -/
theorem stop_collecting_twice_rejected_witness :
    client_stop_collecting
        (client_stop_collecting ClientPerfCollector_init []).2 []
      = (.error .runtimeError, (client_stop_collecting ClientPerfCollector_init []).2) ∧
    docker_stop_collecting
        (docker_stop_collecting (set_containers DockerStatCollector_init ["a", "b"]) [sampleCpu]).2 [sampleNet]
      = (.error .runtimeError,
         (docker_stop_collecting (set_containers DockerStatCollector_init ["a", "b"]) [sampleCpu]).2) :=
  stop_collecting_twice_rejected ClientPerfCollector_init [] []
    (set_containers DockerStatCollector_init ["a", "b"]) [sampleCpu] [sampleNet]
    rfl rfl

/-- Claim C10: stopping the docker collector without `set_containers` ever
having been called leaves `num_containers = 0`; the worker's final
normalization then raises `ZeroDivisionError`, `self.data` is never
assigned, and `stop_collecting` returns the empty initial dataset no matter
how many snapshots were collected. -/
theorem docker_stop_without_containers_returns_empty (collected : List Sample) :
    DockerStatCollector_init.num_containers = 0 ∧
    collect_finalize collected DockerStatCollector_init.num_containers
      = .error .zeroDivisionError ∧
    (docker_stop_collecting DockerStatCollector_init collected).1 = .ok [] ∧
    (docker_stop_collecting DockerStatCollector_init collected).2.data = [] := by
  refine ⟨rfl, rfl, ?_, ?_⟩ <;>
    simp [docker_stop_collecting, DockerStatCollector_init, docker_worker_exit,
      collect_finalize]

/-- Python `min` over a list of numbers: `ValueError` on an empty list
(modelled as `none`), otherwise the least element, computed by folding. -/
def minLQ : List ℚ → Option ℚ
  | [] => none
  | x :: xs => some (xs.foldl min x)

/-- Embedding of the Trim step of `run_analysis`
(src/analysis.py lines 146-151): compute the minimum start time of the
client-perf records and the minimum timestamp of the docker-stats records,
take the smaller of the two, and keep exactly the records whose timestamp is
strictly greater than `spinup` plus that anchor. -/
def trim_datasets (perf : List RequestRec) (stats : List Sample) (spinup : ℚ) :
    Except PyErr (List RequestRec × List Sample) :=
  match minLQ (perf.map RequestRec.start), minLQ (stats.map Sample.time) with
  | some min_time_perf, some min_time_stats =>
      let min_time_measurement := min min_time_perf min_time_stats
      .ok (perf.filter (fun x => decide (spinup + min_time_measurement < x.start)),
           stats.filter (fun x => decide (spinup + min_time_measurement < x.time)))
  | _, _ => .error .valueError

/-- Folding `min` never exceeds the initial accumulator. -/
theorem foldl_min_le_init (xs : List ℚ) : ∀ a : ℚ, xs.foldl min a ≤ a := by
  induction xs with
  | nil => intro a; simp
  | cons x t ih =>
      intro a
      simpa using le_trans (ih (min a x)) (min_le_left a x)

/-- Folding `min` never exceeds any list element. -/
theorem foldl_min_le_mem (xs : List ℚ) :
    ∀ (a x : ℚ), x ∈ xs → xs.foldl min a ≤ x := by
  induction xs with
  | nil => intro a x hx; simp at hx
  | cons y t ih =>
      intro a x hx
      rcases List.mem_cons.mp hx with h | h
      · subst h
        simpa using le_trans (foldl_min_le_init t (min a x)) (min_le_right a x)
      · simpa using ih (min a y) x h

/-- Folding `min` produces the accumulator or a list element. -/
theorem foldl_min_mem (xs : List ℚ) :
    ∀ a : ℚ, xs.foldl min a = a ∨ xs.foldl min a ∈ xs := by
  induction xs with
  | nil => intro a; left; rfl
  | cons y t ih =>
      intro a
      rcases ih (min a y) with h | h
      · rcases min_choice a y with hc | hc
        · left; rw [List.foldl_cons, h, hc]
        · right; rw [List.foldl_cons, h, hc]; exact List.mem_cons_self y t
      · right
        rw [List.foldl_cons]
        exact List.mem_cons_of_mem y h

/-- `minLQ` returns an element of the list. -/
theorem minLQ_mem (l : List ℚ) (m : ℚ) (h : minLQ l = some m) : m ∈ l := by
  cases l with
  | nil => cases h
  | cons x xs =>
      simp only [minLQ, Option.some.injEq] at h
      subst h
      rcases foldl_min_mem xs x with h | h
      · rw [h]; exact List.mem_cons_self x xs
      · exact List.mem_cons_of_mem x h

/-- `minLQ` is a lower bound of the list. -/
theorem minLQ_le (l : List ℚ) (m : ℚ) (h : minLQ l = some m) :
    ∀ x ∈ l, m ≤ x := by
  cases l with
  | nil => cases h
  | cons y xs =>
      simp only [minLQ, Option.some.injEq] at h
      subst h
      intro x hx
      rcases List.mem_cons.mp hx with h | h
      · subst h; exact foldl_min_le_init xs x
      · exact foldl_min_le_mem xs y x h

/-- Claim C3: when the Trim step succeeds and `t0` is the minimum timestamp
across both collected datasets, the retained datasets are exactly the
records with timestamp strictly greater than `t0 + spinup`; every record
with timestamp at most `t0 + spinup` is removed. -/
theorem trim_retains_strictly_after_anchor
    (perf : List RequestRec) (stats : List Sample) (spinup t0 : ℚ)
    (perf2 : List RequestRec) (stats2 : List Sample)
    (hok : trim_datasets perf stats spinup = .ok (perf2, stats2))
    (ht0mem : t0 ∈ perf.map RequestRec.start ++ stats.map Sample.time)
    (ht0min : ∀ t ∈ perf.map RequestRec.start ++ stats.map Sample.time, t0 ≤ t) :
    perf2 = perf.filter (fun r => decide (t0 + spinup < r.start)) ∧
    stats2 = stats.filter (fun r => decide (t0 + spinup < r.time)) := by
  cases hm1 : minLQ (perf.map RequestRec.start) with
  | none =>
      cases hm2 : minLQ (stats.map Sample.time) <;>
        simp [trim_datasets, hm1, hm2] at hok
  | some m1 =>
      cases hm2 : minLQ (stats.map Sample.time) with
      | none => simp [trim_datasets, hm1, hm2] at hok
      | some m2 =>
          simp only [trim_datasets, hm1, hm2, Except.ok.injEq, Prod.mk.injEq] at hok
          obtain ⟨hp, hs⟩ := hok
          have ht0le1 : t0 ≤ m1 :=
            ht0min m1 (List.mem_append_left _ (minLQ_mem _ _ hm1))
          have ht0le2 : t0 ≤ m2 :=
            ht0min m2 (List.mem_append_right _ (minLQ_mem _ _ hm2))
          have hge : min m1 m2 ≤ t0 := by
            rcases List.mem_append.mp ht0mem with h | h
            · exact le_trans (min_le_left m1 m2) (minLQ_le _ _ hm1 t0 h)
            · exact le_trans (min_le_right m1 m2) (minLQ_le _ _ hm2 t0 h)
          have hmin : min m1 m2 = t0 := le_antisymm hge (le_min ht0le1 ht0le2)
          have hfp : (fun x : RequestRec => decide (spinup + min m1 m2 < x.start))
              = (fun x : RequestRec => decide (t0 + spinup < x.start)) := by
            funext x
            rw [hmin, add_comm spinup t0]
          have hfs : (fun x : Sample => decide (spinup + min m1 m2 < x.time))
              = (fun x : Sample => decide (t0 + spinup < x.time)) := by
            funext x
            rw [hmin, add_comm spinup t0]
          constructor
          · rw [← hp, hfp]
          · rw [← hs, hfs]

/-- Concrete latency observation starting at the anchor time 100. -/
def reqA : RequestRec := { id := 0, msg_length := 5, latency := 1, start := 100 }

/-- Concrete latency observation starting at 120, after the spin-up window. -/
def reqB : RequestRec := { id := 1, msg_length := 5, latency := 1, start := 120 }

/-- Concrete docker-stats sample at time 105, inside the spin-up window. -/
def sampleT105 : Sample :=
  { time := 105, container := "jwt-client", total_net_traffic := 0,
    memory_usage := 0, cpu_usage := 0 }

/-- Witness for C3: with anchor `t0 = 100` and spin-up 10, trimming keeps
the observation at 120 and drops the records at 100 and 105. -/
theorem trim_retains_strictly_after_anchor_witness :
    [reqB] = [reqA, reqB].filter (fun r => decide ((100 : ℚ) + 10 < r.start)) ∧
    ([] : List Sample)
      = [sampleT105].filter (fun r => decide ((100 : ℚ) + 10 < r.time)) :=
  trim_retains_strictly_after_anchor [reqA, reqB] [sampleT105] 10 100 [reqB] []
    (by norm_num [trim_datasets, minLQ, List.filter, reqA, reqB, sampleT105, min_def])
    (by norm_num [reqA, reqB, sampleT105])
    (by norm_num [reqA, reqB, sampleT105])

/-- The fixed request timeout `TIMEOUT_SEC` (src/data_collection.py
line 15), in seconds. -/
def TIMEOUT_SEC : ℚ := 9

/-- Outcome of one request issued by `load_continuous`: a response with its
elapsed time, a `requests.ReadTimeout` (the only exception the loop
catches), or any other exception (which escapes and kills the worker). -/
inductive ReqOutcome where
  | response (elapsed : ℚ)
  | readTimeout
  | otherError
deriving DecidableEq

/-- Loop state of `ClientPerfCollector.load_continuous`
(src/data_collection.py lines 47-72): the local `data` list and the
`request_id` counter. -/
structure LoadState where
  data : List RequestRec
  request_id : Nat
deriving DecidableEq

/-- One iteration of the request loop of `load_continuous`
(src/data_collection.py lines 52-71): issue the request; on a response
record its elapsed time, on a `ReadTimeout` record `TIMEOUT_SEC` as the
latency, on any other exception propagate it; then append the observation
and advance `request_id`. -/
def load_step (st : LoadState) (msg_length : Nat) (start : ℚ)
    (outcome : ReqOutcome) : Except PyErr LoadState :=
  match outcome with
  | .response e =>
      .ok { data := st.data ++ [{ id := st.request_id, msg_length := msg_length,
                                  latency := e, start := start }],
            request_id := st.request_id + 1 }
  | .readTimeout =>
      .ok { data := st.data ++ [{ id := st.request_id, msg_length := msg_length,
                                  latency := TIMEOUT_SEC, start := start }],
            request_id := st.request_id + 1 }
  | .otherError => .error .requestError

/-- The request loop of `load_continuous`, run over a finite sequence of
(start time, outcome) pairs observed before the stop event. -/
def load_continuous_run (st : LoadState) (msg_length : Nat) :
    List (ℚ × ReqOutcome) → Except PyErr LoadState
  | [] => .ok st
  | (start, oc) :: rest =>
      match load_step st msg_length start oc with
      | .ok st2 => load_continuous_run st2 msg_length rest
      | .error e => .error e

/-- Claim C7: a request that times out makes the loop record an observation
whose latency is exactly the timeout threshold `TIMEOUT_SEC = 9`; no
exception escapes (the step returns normally) and the loop continues with
the next request under an incremented `request_id`. -/
theorem load_step_timeout_records_sentinel
    (st : LoadState) (msg_length : Nat) (start : ℚ)
    (rest : List (ℚ × ReqOutcome)) :
    load_step st msg_length start .readTimeout
      = .ok { data := st.data ++ [{ id := st.request_id, msg_length := msg_length,
                                    latency := TIMEOUT_SEC, start := start }],
              request_id := st.request_id + 1 } ∧
    TIMEOUT_SEC = 9 ∧
    load_continuous_run st msg_length ((start, .readTimeout) :: rest)
      = load_continuous_run
          { data := st.data ++ [{ id := st.request_id, msg_length := msg_length,
                                  latency := TIMEOUT_SEC, start := start }],
            request_id := st.request_id + 1 } msg_length rest :=
  ⟨rfl, rfl, rfl⟩

/-- Outcome of one foreground attempt of `run_cmd`: the
`subprocess.check_output` call either hits its per-attempt timeout or
completes with some captured output. -/
inductive AttemptOutcome where
  | timedOut
  | completed (out : List Char)
deriving DecidableEq

/-- Result of running `run_cmd` over a finite sequence of observed
attempts: the call returned, it raised the fatal `RuntimeError`, or it is
still inside its unbounded retry loop. -/
inductive RunCmdResult where
  | finished
  | fatal
  | retrying
deriving DecidableEq

/-- Python's substring test `marker in out` on byte strings, modelled on
character lists. -/
def containsSub (marker : List Char) : List Char → Bool
  | [] => marker.isEmpty
  | c :: rest => marker.isPrefixOf (c :: rest) || containsSub marker rest

/-- Embedding of the retry loop of `run_cmd` (src/analysis.py lines 44-62):
a `TimeoutExpired` attempt loops back and the same command is attempted
again; a completed attempt returns normally unless an expected marker is
configured and missing from the output, in which case `RuntimeError` is
raised. -/
def run_cmd_steps (expected : Option (List Char)) :
    List AttemptOutcome → RunCmdResult
  | [] => .retrying
  | .timedOut :: rest => run_cmd_steps expected rest
  | .completed out :: _ =>
      match expected with
      | some marker => if containsSub marker out then .finished else .fatal
      | none => .finished

/-- Claim C9: any number `k` of per-attempt timeouts leaves `run_cmd` at the
same step (the run never fails on timeouts and there is no attempt-count
bound), and an attempt that completes without the expected marker in its
output raises an error fatal for the run. -/
theorem run_cmd_retries_timeouts_marker_fatal
    (marker out : List Char) (k : Nat) (rest : List AttemptOutcome)
    (hout : containsSub marker out = false) :
    run_cmd_steps (some marker) (List.replicate k .timedOut ++ rest)
      = run_cmd_steps (some marker) rest ∧
    run_cmd_steps (some marker) (List.replicate k .timedOut) = .retrying ∧
    run_cmd_steps (some marker) (List.replicate k .timedOut ++ [.completed out])
      = .fatal := by
  have hskip : ∀ r : List AttemptOutcome,
      run_cmd_steps (some marker) (List.replicate k .timedOut ++ r)
        = run_cmd_steps (some marker) r := by
    induction k with
    | zero => intro r; rfl
    | succ n ih =>
        intro r
        simpa [List.replicate_succ, run_cmd_steps] using ih r
  refine ⟨hskip rest, ?_, ?_⟩
  · have h0 := hskip []
    rwa [List.append_nil] at h0
  · rw [hskip [.completed out]]
    simp [run_cmd_steps, hout]

/-- Witness for C9: after two timeouts of `mvn -B test`, an attempt whose
output lacks the BUILD SUCCESS marker is fatal, while the timeouts alone
leave the loop retrying. -/
theorem run_cmd_retries_timeouts_marker_fatal_witness :
    run_cmd_steps (some "BUILD SUCCESS".toList)
        (List.replicate 2 .timedOut ++ [.completed "BUILD FAILURE".toList])
      = run_cmd_steps (some "BUILD SUCCESS".toList)
          [.completed "BUILD FAILURE".toList] ∧
    run_cmd_steps (some "BUILD SUCCESS".toList) (List.replicate 2 .timedOut)
      = .retrying ∧
    run_cmd_steps (some "BUILD SUCCESS".toList)
        (List.replicate 2 .timedOut ++ [.completed "BUILD FAILURE".toList])
      = .fatal :=
  run_cmd_retries_timeouts_marker_fatal "BUILD SUCCESS".toList
    "BUILD FAILURE".toList 2 [.completed "BUILD FAILURE".toList] (by decide)
